import Mathlib

/- Shallow embedding of the framer-plugin MCP server (src/index.ts): the tool
catalog, the tool-call dispatch, and the two tool handlers create_plugin and
build_plugin.  Filesystem and process effects are modelled explicitly:
directory creations, file writes and process invocations are recorded, and the
filesystem / external-process environment is passed in as oracle functions. -/

/-- JSON values as written by fs.writeJSON.  The generated configuration
documents use only strings, booleans, arrays and objects; objects are
association lists so that field order is preserved, and serialization with
2-space indentation is deterministic and injective on this type, so equality
of documents models byte-identity of the written files. -/
inductive Json where
  | str (s : String)
  | bool (b : Bool)
  | arr (elems : List Json)
  | obj (fields : List (String × Json))

/-- Kind of a filesystem node.  fs.pathExists, which build_plugin uses, is
true for a file as well as for a directory. -/
inductive PathKind where
  | file
  | dir
deriving DecidableEq, Repr

/-- Arguments of the create_plugin tool (interface CreatePluginArgs). -/
structure CreatePluginArgs where
  name : String
  description : String
  outputPath : String
  web3Features : Option (List String)
deriving DecidableEq, Repr

/-- Arguments of the build_plugin tool (interface BuildPluginArgs). -/
structure BuildPluginArgs where
  pluginPath : String
deriving DecidableEq, Repr

/-- The package.json record composed by handleCreatePlugin (interface
PackageJson); the three records are association lists, preserving the JSON
field order of the source. -/
structure PackageJson where
  name : String
  version : String
  description : String
  main : String
  scripts : List (String × String)
  dependencies : List (String × String)
  devDependencies : List (String × String)
deriving DecidableEq, Repr

/-- The two protocol error codes the server raises (from the MCP SDK). -/
inductive ErrorCode where
  | methodNotFound
  | internalError
deriving DecidableEq, Repr

/-- A structured protocol error (class McpError). -/
structure McpError where
  code : ErrorCode
  message : String
deriving DecidableEq, Repr

/-- One block of a tool-call result's content array; the server only ever
returns text blocks. -/
inductive ContentBlock where
  | text (s : String)
deriving DecidableEq, Repr

/-- Content written to a file: a JSON document (fs.writeJSON) or plain text
(fs.writeFile). -/
inductive FileContent where
  | json (j : Json)
  | text (s : String)

/-- The side effects one tool invocation performs on its environment, in
order: directories ensured, files written, external processes invoked. -/
structure Effects where
  dirsEnsured : List String
  filesWritten : List (String × FileContent)
  spawned : List (String × String)

/-- The outcome of one tool invocation: its effects, and either a content
list or a structured protocol error. -/
structure CallResult where
  effects : Effects
  result : Except McpError (List ContentBlock)

/-- A POSIX-absolute path: one that starts with a slash. -/
def isAbsolute (p : String) : Bool :=
  match p.data with
  | '/' :: _ => true
  | _ => false

/-- Node's path.resolve applied to one argument, against the process working
directory cwd (dot-segment normalization is not modelled; an absolute
argument is returned as given). -/
def resolvePath (cwd p : String) : String :=
  if isAbsolute p then p else cwd ++ "/" ++ p

/-- Node's path.join for one extra segment (normalization is not modelled). -/
def pathJoin (a b : String) : String := a ++ "/" ++ b

/-- The optional-chaining membership test args.web3Features?.includes(f):
false when the list is absent. -/
def web3Includes (w : Option (List String)) (f : String) : Bool :=
  match w with
  | none => false
  | some fs => fs.contains f

/-- Base dependency set of the generated package.json. -/
def baseDependencies : List (String × String) :=
  [("@framer/framer.motion", "^10.0.0"), ("react", "^18.2.0"), ("react-dom", "^18.2.0")]

/-- Dev-dependency set of the generated package.json. -/
def devDependenciesList : List (String × String) :=
  [("@types/react", "^18.2.0"), ("typescript", "^5.0.0"), ("vite", "^4.0.0"),
   ("@vitejs/plugin-react", "^4.0.0")]

/-- The three dependencies spread into package.json when web3Features
contains "wallet-connect"; the object spread adds these fresh keys after the
base entries. -/
def web3Dependencies : List (String × String) :=
  [("@web3-react/core", "^8.2.0"), ("@web3-react/injected-connector", "^6.0.7"),
   ("ethers", "^6.7.0")]

/-- The PackageJson record handleCreatePlugin composes for a request. -/
def packageJsonFor (args : CreatePluginArgs) : PackageJson :=
  let base : PackageJson :=
    { name := args.name
      version := "1.0.0"
      description := args.description
      main := "dist/index.js"
      scripts := [("build", "vite build"), ("dev", "vite")]
      dependencies := baseDependencies
      devDependencies := devDependenciesList }
  if web3Includes args.web3Features "wallet-connect" then
    { base with dependencies := base.dependencies ++ web3Dependencies }
  else base

/-- Serialization of a string-to-string record as a JSON object. -/
def recordJson (r : List (String × String)) : Json :=
  Json.obj (r.map (fun kv => (kv.1, Json.str kv.2)))

/-- The JSON document written to package.json. -/
def packageJsonDoc (p : PackageJson) : Json :=
  Json.obj
    [("name", Json.str p.name), ("version", Json.str p.version),
     ("description", Json.str p.description), ("main", Json.str p.main),
     ("scripts", recordJson p.scripts), ("dependencies", recordJson p.dependencies),
     ("devDependencies", recordJson p.devDependencies)]

/-- The tsconfig.json document (a constant; its content does not vary with
the request). -/
def tsConfigDoc : Json :=
  Json.obj
    [("compilerOptions", Json.obj
       [("target", Json.str "ES2020"),
        ("lib", Json.arr [Json.str "DOM", Json.str "DOM.Iterable", Json.str "ESNext"]),
        ("module", Json.str "ESNext"),
        ("skipLibCheck", Json.bool true),
        ("moduleResolution", Json.str "bundler"),
        ("allowImportingTsExtensions", Json.bool true),
        ("resolveJsonModule", Json.bool true),
        ("isolatedModules", Json.bool true),
        ("noEmit", Json.bool true),
        ("jsx", Json.str "react-jsx"),
        ("strict", Json.bool true),
        ("noUnusedLocals", Json.bool true),
        ("noUnusedParameters", Json.bool true),
        ("noFallthroughCasesInSwitch", Json.bool true)]),
     ("include", Json.arr [Json.str "src"]),
     ("references", Json.arr [Json.obj [("path", Json.str "./tsconfig.node.json")]])]

/-- The tsconfig.node.json document (a constant). -/
def tsNodeConfigDoc : Json :=
  Json.obj
    [("compilerOptions", Json.obj
       [("composite", Json.bool true),
        ("skipLibCheck", Json.bool true),
        ("module", Json.str "ESNext"),
        ("moduleResolution", Json.str "bundler"),
        ("allowSyntheticDefaultImports", Json.bool true)]),
     ("include", Json.arr [Json.str "vite.config.ts"])]

/-- Part of the vite.config.ts template before the interpolated plugin name
(braces of the generated code are written as hex escapes). -/
def viteConfigA : String :=
  "\nimport \x7b defineConfig \x7d from 'vite';\nimport react from '@vitejs/plugin-react';\n\nexport default defineConfig(\x7b\n  plugins: [react()],\n  build: \x7b\n    lib: \x7b\n      entry: 'src/index.tsx',\n      name: '"

/-- Part of the vite.config.ts template after the interpolated plugin name. -/
def viteConfigB : String :=
  "',\n      formats: ['es'],\n      fileName: 'index'\n    \x7d,\n    rollupOptions: \x7b\n      external: ['react', 'react-dom'],\n      output: \x7b\n        globals: \x7b\n          react: 'React',\n          'react-dom': 'ReactDOM'\n        \x7d\n      \x7d\n    \x7d\n  \x7d\n\x7d);\n"

/-- The vite.config.ts content: the template with args.name interpolated as
the library name. -/
def viteConfigFor (name : String) : String := viteConfigA ++ name ++ viteConfigB

/-- Import header of the plain src/index.tsx template, up to the export. -/
def indexImportsPlain : String :=
  "\nimport \x7b addPropertyControls, ControlType \x7d from 'framer';\nimport \x7b motion \x7d from 'framer-motion';\nimport React from 'react';\n\n"

/-- The export keyword sequence shared by both index.tsx variants. -/
def kwExportFn : String := "export default function "

/-- The parameter list following the interpolated component identifier. -/
def parens : String := "()"

/-- Body of the plain variant's component, between the parameter list and the
addPropertyControls call. -/
def plainBodyCore : String :=
  " \x7b\n  return (\n    <motion.div\n      style=\x7b\x7b\n        width: 200,\n        height: 200,\n        backgroundColor: '#09F',\n        borderRadius: 20,\n      \x7d\x7d\n      whileHover=\x7b\x7b scale: 1.1 \x7d\x7d\n      whileTap=\x7b\x7b scale: 0.9 \x7d\x7d\n    />\n  );\n\x7d\n\n"

/-- The addPropertyControls call head shared by both variants. -/
def addControlsCall : String := "addPropertyControls("

/-- The property-controls object up to the defaultValue entry, shared by both
variants. -/
def controlsHead : String :=
  ", \x7b\n  text: \x7b\n    type: ControlType.String,\n    title: 'Text',\n    "

/-- The defaultValue key and its opening quote. -/
def defaultValueKey : String := "defaultValue: '"

/-- Closing quote, comma and newline after the default text. -/
def quoteCommaNl : String := "',\n"

/-- Tail of the property-controls object, shared by both variants. -/
def controlsTail : String := "  \x7d,\n\x7d);\n"

/-- The plain src/index.tsx variant for the given component identifier
(default text "Hello World"). -/
def plainIndexContent (ident : String) : String :=
  indexImportsPlain ++ kwExportFn ++ ident ++ parens ++ plainBodyCore ++
    addControlsCall ++ ident ++ controlsHead ++ defaultValueKey ++ "Hello World" ++
    quoteCommaNl ++ controlsTail

/-- Header of the wallet src/index.tsx variant: imports, the injected
connector and the Web3Button component, up to the export. -/
def walletHeader : String :=
  "\nimport \x7b addPropertyControls, ControlType \x7d from 'framer';\nimport \x7b motion \x7d from 'framer-motion';\nimport React from 'react';\nimport \x7b Web3ReactProvider, useWeb3React \x7d from '@web3-react/core';\nimport \x7b InjectedConnector \x7d from '@web3-react/injected-connector';\nimport \x7b ethers \x7d from 'ethers';\n\nconst injected = new InjectedConnector(\x7b\n  supportedChainIds: [1, 3, 4, 5, 42],\n\x7d);\n\nfunction Web3Button() \x7b\n  const \x7b activate, active, account, library \x7d = useWeb3React();\n\n  const connect = async () => \x7b\n    try \x7b\n      await activate(injected);\n    \x7d catch (error) \x7b\n      console.error('Error connecting:', error);\n    \x7d\n  \x7d;\n\n  return (\n    <motion.button\n      onClick=\x7bconnect\x7d\n      whileHover=\x7b\x7b scale: 1.1 \x7d\x7d\n      whileTap=\x7b\x7b scale: 0.9 \x7d\x7d\n      style=\x7b\x7b\n        padding: '10px 20px',\n        borderRadius: 8,\n        backgroundColor: active ? '#4CAF50' : '#09F',\n        color: 'white',\n        border: 'none',\n        cursor: 'pointer',\n      \x7d\x7d\n    >\n      \x7bactive ? `Connected: $\x7baccount?.slice(0, 6)\x7d...$\x7baccount?.slice(-4)\x7d` : 'Connect Wallet'\x7d\n    </motion.button>\n  );\n\x7d\n\n"

/-- Body of the wallet variant's exported component, between the parameter
list and the addPropertyControls call. -/
def walletBodyCore : String :=
  " \x7b\n  return (\n    <Web3ReactProvider getLibrary=\x7b(provider) => new ethers.BrowserProvider(provider)\x7d>\n      <Web3Button />\n    </Web3ReactProvider>\n  );\n\x7d\n\n"

/-- The wallet src/index.tsx variant for the given component identifier
(default text "Connect Wallet"). -/
def walletIndexContent (ident : String) : String :=
  walletHeader ++ kwExportFn ++ ident ++ parens ++ walletBodyCore ++
    addControlsCall ++ ident ++ controlsHead ++ defaultValueKey ++ "Connect Wallet" ++
    quoteCommaNl ++ controlsTail

/-- The component identifier: args.name with every dash replaced by an
underscore (args.name.replace with the global single-character dash pattern,
which is exactly a character-wise map). -/
def componentIdent (name : String) : String :=
  String.mk (name.data.map (fun c => if c = '-' then '_' else c))

/-- The src/index.tsx content generated for a request: the wallet variant
when web3Features contains "wallet-connect", the plain variant otherwise. -/
def indexContentFor (args : CreatePluginArgs) : String :=
  if web3Includes args.web3Features "wallet-connect" then
    walletIndexContent (componentIdent args.name)
  else
    plainIndexContent (componentIdent args.name)

/-- The create_plugin handler (handleCreatePlugin).  Filesystem calls are
modelled as recorded effects that always succeed: fs-extra's ensureDir
accepts an existing directory and writeJSON / writeFile overwrite existing
files, so with an ideal filesystem the catch branch that wraps an I/O failure
into an internal error is unreachable. -/
def handleCreatePlugin (cwd : String) (args : CreatePluginArgs) : CallResult :=
  let pluginDir := resolvePath cwd args.outputPath
  let srcDir := pathJoin pluginDir "src"
  { effects :=
      { dirsEnsured := [pluginDir, srcDir]
        filesWritten :=
          [(pathJoin pluginDir "package.json",
              FileContent.json (packageJsonDoc (packageJsonFor args))),
           (pathJoin pluginDir "tsconfig.json", FileContent.json tsConfigDoc),
           (pathJoin pluginDir "tsconfig.node.json", FileContent.json tsNodeConfigDoc),
           (pathJoin pluginDir "vite.config.ts", FileContent.text (viteConfigFor args.name)),
           (pathJoin srcDir "index.tsx", FileContent.text (indexContentFor args))]
        spawned := [] }
    result := Except.ok
      [ContentBlock.text ("Successfully created Framer plugin project at " ++ pluginDir)] }

/-- The build_plugin handler (handleBuildPlugin).  The filesystem is modelled
by pathKind: fs.pathExists is true exactly when pathKind returns some kind,
file or directory.  exec models the external command invocation
execSync with the npm build script in the resolved directory; every
invocation is recorded in spawned, and a failing invocation surfaces through
the catch branch as an internal error. -/
def handleBuildPlugin (cwd : String) (pathKind : String → Option PathKind)
    (exec : String → String → Except String Unit) (args : BuildPluginArgs) : CallResult :=
  let pluginDir := resolvePath cwd args.pluginPath
  if (pathKind pluginDir).isSome then
    match exec "npm run build" pluginDir with
    | Except.ok _ =>
      { effects := { dirsEnsured := [], filesWritten := [], spawned := [("npm run build", pluginDir)] }
        result := Except.ok [ContentBlock.text ("Successfully built plugin at " ++ pluginDir)] }
    | Except.error msg =>
      { effects := { dirsEnsured := [], filesWritten := [], spawned := [("npm run build", pluginDir)] }
        result := Except.error ⟨ErrorCode.internalError, "Failed to build plugin: " ++ msg⟩ }
  else
    { effects := { dirsEnsured := [], filesWritten := [], spawned := [] }
      result := Except.error
        ⟨ErrorCode.internalError,
         "Failed to build plugin: " ++ ("Plugin directory not found: " ++ pluginDir)⟩ }

/-- A tool-call request's argument payload. -/
inductive ToolArgs where
  | create (a : CreatePluginArgs)
  | build (a : BuildPluginArgs)

/-- Models the unchecked cast of request.params.arguments to
CreatePluginArgs: a payload of the other shape reaches the handler with its
fields missing (missing strings modelled as empty). -/
def ToolArgs.toCreate : ToolArgs → CreatePluginArgs
  | ToolArgs.create a => a
  | ToolArgs.build _ => { name := "", description := "", outputPath := "", web3Features := none }

/-- Models the unchecked cast of request.params.arguments to BuildPluginArgs
(see ToolArgs.toCreate). -/
def ToolArgs.toBuild : ToolArgs → BuildPluginArgs
  | ToolArgs.build a => a
  | ToolArgs.create _ => { pluginPath := "" }

/-- The CallTool request handler: dispatch on the exact tool name; an
unrecognized name raises McpError with the method-not-found code and the
message "Unknown tool: <name>", without invoking any handler. -/
def callTool (cwd : String) (pathKind : String → Option PathKind)
    (exec : String → String → Except String Unit) (name : String) (args : ToolArgs) :
    CallResult :=
  if name = "create_plugin" then handleCreatePlugin cwd args.toCreate
  else if name = "build_plugin" then handleBuildPlugin cwd pathKind exec args.toBuild
  else
    { effects := { dirsEnsured := [], filesWritten := [], spawned := [] }
      result := Except.error ⟨ErrorCode.methodNotFound, "Unknown tool: " ++ name⟩ }

/-- A tool descriptor as returned by the ListTools handler. -/
structure ToolDescriptor where
  name : String
  description : String
  inputSchema : Json

/-- Input schema of create_plugin, verbatim from the tool catalog. -/
def createPluginSchema : Json :=
  Json.obj
    [("type", Json.str "object"),
     ("properties", Json.obj
       [("name", Json.obj
          [("type", Json.str "string"), ("description", Json.str "Plugin name")]),
        ("description", Json.obj
          [("type", Json.str "string"), ("description", Json.str "Plugin description")]),
        ("outputPath", Json.obj
          [("type", Json.str "string"), ("description", Json.str "Output directory path")]),
        ("web3Features", Json.obj
          [("type", Json.str "array"),
           ("items", Json.obj
             [("type", Json.str "string"),
              ("enum", Json.arr
                [Json.str "wallet-connect", Json.str "contract-interaction",
                 Json.str "nft-display"])]),
           ("description", Json.str "Web3 features to include")])]),
     ("required", Json.arr [Json.str "name", Json.str "description", Json.str "outputPath"])]

/-- Input schema of build_plugin, verbatim from the tool catalog. -/
def buildPluginSchema : Json :=
  Json.obj
    [("type", Json.str "object"),
     ("properties", Json.obj
       [("pluginPath", Json.obj
          [("type", Json.str "string"),
           ("description", Json.str "Path to plugin directory")])]),
     ("required", Json.arr [Json.str "pluginPath"])]

/-- The ListTools handler: the static catalog of the two tools, in order. -/
def listTools : List ToolDescriptor :=
  [{ name := "create_plugin"
     description := "Create a new Framer plugin project with web3 capabilities"
     inputSchema := createPluginSchema },
   { name := "build_plugin"
     description := "Build a Framer plugin project"
     inputSchema := buildPluginSchema }]

/-- Field lookup in a JSON object document. -/
def jsonField (j : Json) (k : String) : Option Json :=
  match j with
  | Json.obj fields => List.lookup k fields
  | _ => none

/-- A filesystem modelled as an association list from absolute paths to file
contents. -/
abbrev FileSystem : Type := List (String × FileContent)

/-- Overwriting write of one file: replaces the entry at the path when one
exists, appends a fresh entry otherwise (the semantics of fs.writeJSON and
fs.writeFile against an existing or fresh path). -/
def fsWrite : FileSystem → String → FileContent → FileSystem
  | [], p, c => [(p, c)]
  | (q, d) :: fs, p, c => if q = p then (p, c) :: fs else (q, d) :: fsWrite fs p c

/-- Apply a handler's recorded file writes to a filesystem, in order. -/
def applyWrites (fs : FileSystem) (ws : List (String × FileContent)) : FileSystem :=
  ws.foldl (fun acc w => fsWrite acc w.1 w.2) fs

/-- Run create_plugin against a filesystem state: the filesystem after all of
the handler's writes. -/
def runCreate (fs : FileSystem) (cwd : String) (args : CreatePluginArgs) : FileSystem :=
  applyWrites fs (handleCreatePlugin cwd args).effects.filesWritten

/-- Substring occurrence: t occurs contiguously somewhere in s. -/
def strContains (s t : String) : Prop :=
  ∃ pre post : String, s = pre ++ t ++ post

/-- A string built around a middle part contains that part. -/
theorem strContains_parts (pre mid post : String) : strContains (pre ++ mid ++ post) mid :=
  ⟨pre, post, rfl⟩

/-- Appending equal strings on the left is cancellable. -/
theorem strCancelLeft {a b c : String} (h : a ++ b = a ++ c) : b = c := by
  have hd : a.data ++ b.data = a.data ++ c.data := by
    have := congrArg String.data h
    simpa [String.data_append] using this
  apply String.ext
  exact List.append_cancel_left hd

/-- Unequal right parts stay unequal after appending the same left part. -/
theorem strNeAppendLeft {b c : String} (a : String) (h : b ≠ c) : a ++ b ≠ a ++ c :=
  fun he => h (strCancelLeft he)

/-- One write step of a batch. -/
theorem applyWrites_cons (fs : FileSystem) (p : String) (c : FileContent)
    (t : List (String × FileContent)) :
    applyWrites fs ((p, c) :: t) = applyWrites (fsWrite fs p c) t := rfl

/-- Looking a path up after an overwriting write: the written content at the
written path, the previous content elsewhere. -/
theorem lookup_fsWrite (fs : FileSystem) (p q : String) (c : FileContent) :
    List.lookup q (fsWrite fs p c) = if q = p then some c else List.lookup q fs := by
  induction fs with
  | nil =>
    by_cases h : q = p
    · subst h; simp [fsWrite, List.lookup]
    · simp [fsWrite, List.lookup, h, beq_eq_false_iff_ne.mpr h]
  | cons hd t ih =>
    obtain ⟨k, d⟩ := hd
    by_cases hk : k = p
    · subst hk
      by_cases h : q = k
      · subst h; simp [fsWrite, List.lookup]
      · simp [fsWrite, List.lookup, h, beq_eq_false_iff_ne.mpr h]
    · by_cases h : q = k
      · subst h
        simp [fsWrite, hk, List.lookup, Ne.symm hk]
      · simp [fsWrite, hk, List.lookup, h, beq_eq_false_iff_ne.mpr h, ih]

/-- Writing the content a path already holds (as its first entry) leaves the
filesystem unchanged. -/
theorem fsWrite_eq_of_lookup (fs : FileSystem) (p : String) (c : FileContent)
    (h : List.lookup p fs = some c) : fsWrite fs p c = fs := by
  induction fs with
  | nil => simp [List.lookup] at h
  | cons hd t ih =>
    obtain ⟨k, d⟩ := hd
    by_cases hk : k = p
    · subst hk
      simp [List.lookup] at h
      simp [fsWrite, h]
    · rw [List.lookup] at h
      rw [beq_eq_false_iff_ne.mpr (Ne.symm hk)] at h
      simp [fsWrite, hk, ih h]

/-- A batch of writes whose keys avoid a path leaves that path's entry
unchanged. -/
theorem lookup_applyWrites (ws : List (String × FileContent)) (fs : FileSystem)
    (p : String) (h : p ∉ ws.map Prod.fst) :
    List.lookup p (applyWrites fs ws) = List.lookup p fs := by
  induction ws generalizing fs with
  | nil => rfl
  | cons w t ih =>
    obtain ⟨q, c⟩ := w
    simp only [List.map, List.mem_cons, not_or] at h
    rw [applyWrites_cons, ih _ h.2, lookup_fsWrite, if_neg h.1]

/-- Applying a batch of writes with pairwise distinct keys twice gives the
same filesystem as applying it once. -/
theorem applyWrites_idem (ws : List (String × FileContent)) (fs : FileSystem)
    (h : (ws.map Prod.fst).Nodup) :
    applyWrites (applyWrites fs ws) ws = applyWrites fs ws := by
  induction ws generalizing fs with
  | nil => rfl
  | cons w t ih =>
    obtain ⟨p, c⟩ := w
    simp only [List.map, List.nodup_cons] at h
    have hX : List.lookup p (applyWrites (fsWrite fs p c) t) = some c := by
      rw [lookup_applyWrites t _ p h.1, lookup_fsWrite, if_pos rfl]
    rw [applyWrites_cons, applyWrites_cons, fsWrite_eq_of_lookup _ _ _ hX]
    exact ih _ h.2

/-- The five paths create_plugin writes to are pairwise distinct, for every
resolved output directory. -/
theorem createPaths_nodup (d : String) :
    ([pathJoin d "package.json", pathJoin d "tsconfig.json", pathJoin d "tsconfig.node.json",
      pathJoin d "vite.config.ts", pathJoin (pathJoin d "src") "index.tsx"] : List String).Nodup := by
  simp only [pathJoin, String.append_assoc, List.nodup_cons, List.mem_cons, List.mem_singleton,
    List.not_mem_nil, or_false, not_or, List.nodup_nil, and_true]
  and_intros <;> first
    | exact not_false
    | (apply strNeAppendLeft d; decide)

/-- C6: create_plugin is idempotent against the filesystem: running the same
request a second time over the already-populated directory succeeds (the
handler reports success unconditionally) and leaves every generated file with
the content the first run wrote. -/
theorem createPlugin_idempotent (fs : FileSystem) (cwd : String) (args : CreatePluginArgs) :
    runCreate (runCreate fs cwd args) cwd args = runCreate fs cwd args ∧
    ∃ blocks, (handleCreatePlugin cwd args).result = Except.ok blocks := by
  refine ⟨?_, _, rfl⟩
  simp only [runCreate]
  apply applyWrites_idem
  have h5 := createPaths_nodup (resolvePath cwd args.outputPath)
  simpa [handleCreatePlugin] using h5

set_option maxRecDepth 100000 in
/-- C1: for a request whose web3Features do not include "wallet-connect",
create_plugin writes exactly five files under the resolved output path -
package.json, tsconfig.json, tsconfig.node.json, vite.config.ts and
src/index.tsx - and nothing else; and when the name is "widget" the generated
source file exports the identifier widget and its property control's default
text is "Hello World". -/
theorem createPlugin_writes_five_files (cwd : String) (args : CreatePluginArgs)
    (h : web3Includes args.web3Features "wallet-connect" = false) :
    (handleCreatePlugin cwd args).effects.filesWritten.map Prod.fst =
      [pathJoin (resolvePath cwd args.outputPath) "package.json",
       pathJoin (resolvePath cwd args.outputPath) "tsconfig.json",
       pathJoin (resolvePath cwd args.outputPath) "tsconfig.node.json",
       pathJoin (resolvePath cwd args.outputPath) "vite.config.ts",
       pathJoin (pathJoin (resolvePath cwd args.outputPath) "src") "index.tsx"] ∧
    (args.name = "widget" →
      strContains (indexContentFor args) "export default function widget()" ∧
      strContains (indexContentFor args) "defaultValue: 'Hello World',\n") := by
  constructor
  · simp [handleCreatePlugin]
  · intro hn
    have hident : componentIdent args.name = "widget" := by rw [hn]; decide
    have hc : indexContentFor args = plainIndexContent "widget" := by
      simp [indexContentFor, h, hident]
    rw [hc]
    constructor
    · exact ⟨indexImportsPlain,
        plainBodyCore ++ addControlsCall ++ "widget" ++ controlsHead ++ defaultValueKey ++
          "Hello World" ++ quoteCommaNl ++ controlsTail, by decide⟩
    · exact ⟨indexImportsPlain ++ kwExportFn ++ "widget" ++ parens ++ plainBodyCore ++
          addControlsCall ++ "widget" ++ controlsHead, controlsTail, by decide⟩

/-- C1 witness: the five-file write set at a concrete request with
name "widget" and no web3 features. -/
theorem createPlugin_writes_five_files_witness :
    (web3Includes (CreatePluginArgs.mk "widget" "a plugin" "out" none).web3Features
        "wallet-connect" = false) ∧
    ((handleCreatePlugin "/cwd" (CreatePluginArgs.mk "widget" "a plugin" "out" none)).effects.filesWritten.map
        Prod.fst =
      [pathJoin (resolvePath "/cwd" "out") "package.json",
       pathJoin (resolvePath "/cwd" "out") "tsconfig.json",
       pathJoin (resolvePath "/cwd" "out") "tsconfig.node.json",
       pathJoin (resolvePath "/cwd" "out") "vite.config.ts",
       pathJoin (pathJoin (resolvePath "/cwd" "out") "src") "index.tsx"] ∧
     ((CreatePluginArgs.mk "widget" "a plugin" "out" none).name = "widget" →
       strContains (indexContentFor (CreatePluginArgs.mk "widget" "a plugin" "out" none))
         "export default function widget()" ∧
       strContains (indexContentFor (CreatePluginArgs.mk "widget" "a plugin" "out" none))
         "defaultValue: 'Hello World',\n")) :=
  ⟨by decide,
   createPlugin_writes_five_files "/cwd" (CreatePluginArgs.mk "widget" "a plugin" "out" none)
     (by decide)⟩

/-- C2: with "wallet-connect" requested, the dependency record equals the
wallet-less request's record with exactly the three web3 entries appended
(none of whose keys is a base dependency key), and the generated source
file's property-control default text is "Connect Wallet". -/
theorem createPlugin_wallet_dependencies (args : CreatePluginArgs)
    (h : web3Includes args.web3Features "wallet-connect" = true) :
    (packageJsonFor args).dependencies =
      (packageJsonFor { args with web3Features := none }).dependencies ++ web3Dependencies ∧
    web3Dependencies.length = 3 ∧
    (∀ k ∈ web3Dependencies.map Prod.fst, k ∉ baseDependencies.map Prod.fst) ∧
    strContains (indexContentFor args) ("defaultValue: '" ++ "Connect Wallet" ++ "',\n") := by
  refine ⟨?_, by decide, by decide, ?_⟩
  · have h0 : web3Includes none "wallet-connect" = false := rfl
    simp [packageJsonFor, h, h0]
  · have hc : indexContentFor args = walletIndexContent (componentIdent args.name) := by
      simp [indexContentFor, h]
    rw [hc]
    refine ⟨walletHeader ++ kwExportFn ++ componentIdent args.name ++ parens ++ walletBodyCore ++
      addControlsCall ++ componentIdent args.name ++ controlsHead, controlsTail, ?_⟩
    simp only [walletIndexContent, defaultValueKey, quoteCommaNl, String.append_assoc]

/-- C2 witness: the wallet dependency set and default text at a concrete
request with web3Features containing "wallet-connect". -/
theorem createPlugin_wallet_dependencies_witness :
    (web3Includes (CreatePluginArgs.mk "widget" "a plugin" "out"
        (some ["wallet-connect"])).web3Features "wallet-connect" = true) ∧
    ((packageJsonFor (CreatePluginArgs.mk "widget" "a plugin" "out"
        (some ["wallet-connect"]))).dependencies =
      (packageJsonFor { CreatePluginArgs.mk "widget" "a plugin" "out"
          (some ["wallet-connect"]) with web3Features := none }).dependencies ++ web3Dependencies ∧
     web3Dependencies.length = 3 ∧
     (∀ k ∈ web3Dependencies.map Prod.fst, k ∉ baseDependencies.map Prod.fst) ∧
     strContains (indexContentFor (CreatePluginArgs.mk "widget" "a plugin" "out"
        (some ["wallet-connect"]))) ("defaultValue: '" ++ "Connect Wallet" ++ "',\n")) :=
  ⟨by decide,
   createPlugin_wallet_dependencies
     (CreatePluginArgs.mk "widget" "a plugin" "out" (some ["wallet-connect"])) (by decide)⟩

/-- C5: in both generated source variants the exported identifier is the
request's name with every dash replaced by an underscore, and the file the
handler writes is one of the two variants, whatever the feature flags are. -/
theorem createPlugin_exported_identifier (args : CreatePluginArgs) :
    strContains (plainIndexContent (componentIdent args.name))
      ("export default function " ++ componentIdent args.name ++ "()") ∧
    strContains (walletIndexContent (componentIdent args.name))
      ("export default function " ++ componentIdent args.name ++ "()") ∧
    (indexContentFor args = plainIndexContent (componentIdent args.name) ∨
     indexContentFor args = walletIndexContent (componentIdent args.name)) := by
  refine ⟨⟨indexImportsPlain,
      plainBodyCore ++ addControlsCall ++ componentIdent args.name ++ controlsHead ++
        defaultValueKey ++ "Hello World" ++ quoteCommaNl ++ controlsTail, ?_⟩,
    ⟨walletHeader,
      walletBodyCore ++ addControlsCall ++ componentIdent args.name ++ controlsHead ++
        defaultValueKey ++ "Connect Wallet" ++ quoteCommaNl ++ controlsTail, ?_⟩, ?_⟩
  · simp only [plainIndexContent, kwExportFn, parens, String.append_assoc]
  · simp only [walletIndexContent, kwExportFn, parens, String.append_assoc]
  · by_cases hw : web3Includes args.web3Features "wallet-connect" = true
    · exact Or.inr (by simp [indexContentFor, hw])
    · exact Or.inl (by simp [indexContentFor, hw])

/-- C7: two create requests that agree on name, description and outputPath
and agree on whether web3Features contains "wallet-connect" produce identical
invocation outcomes - in particular identical generated file contents; the
flags "contract-interaction" and "nft-display" have no observable effect. -/
theorem createPlugin_wallet_only_observable (cwd : String) (a1 a2 : CreatePluginArgs)
    (hn : a1.name = a2.name) (hd : a1.description = a2.description)
    (ho : a1.outputPath = a2.outputPath)
    (hw : web3Includes a1.web3Features "wallet-connect" =
          web3Includes a2.web3Features "wallet-connect") :
    handleCreatePlugin cwd a1 = handleCreatePlugin cwd a2 := by
  simp only [handleCreatePlugin, packageJsonFor, indexContentFor, viteConfigFor, componentIdent,
    hn, hd, ho, hw]

/-- C7 witness: concrete requests differing only in the inert feature flags
produce the same outcome. -/
theorem createPlugin_wallet_only_observable_witness :
    ((CreatePluginArgs.mk "n" "d" "o" (some ["contract-interaction"])).name =
        (CreatePluginArgs.mk "n" "d" "o" (some ["nft-display"])).name ∧
     (CreatePluginArgs.mk "n" "d" "o" (some ["contract-interaction"])).description =
        (CreatePluginArgs.mk "n" "d" "o" (some ["nft-display"])).description ∧
     (CreatePluginArgs.mk "n" "d" "o" (some ["contract-interaction"])).outputPath =
        (CreatePluginArgs.mk "n" "d" "o" (some ["nft-display"])).outputPath ∧
     web3Includes (CreatePluginArgs.mk "n" "d" "o" (some ["contract-interaction"])).web3Features
        "wallet-connect" =
       web3Includes (CreatePluginArgs.mk "n" "d" "o" (some ["nft-display"])).web3Features
        "wallet-connect") ∧
    handleCreatePlugin "/cwd" (CreatePluginArgs.mk "n" "d" "o" (some ["contract-interaction"])) =
      handleCreatePlugin "/cwd" (CreatePluginArgs.mk "n" "d" "o" (some ["nft-display"])) :=
  ⟨⟨rfl, rfl, rfl, by decide⟩,
   createPlugin_wallet_only_observable "/cwd"
     (CreatePluginArgs.mk "n" "d" "o" (some ["contract-interaction"]))
     (CreatePluginArgs.mk "n" "d" "o" (some ["nft-display"])) rfl rfl rfl (by decide)⟩

/-- C10: two create requests differing only in description generate identical
contents for every file but package.json, and their package.json records
differ exactly in the description field. -/
theorem createPlugin_description_frame (cwd : String) (a1 a2 : CreatePluginArgs)
    (hn : a1.name = a2.name) (ho : a1.outputPath = a2.outputPath)
    (hw : a1.web3Features = a2.web3Features) :
    (handleCreatePlugin cwd a1).effects.filesWritten.drop 1 =
      (handleCreatePlugin cwd a2).effects.filesWritten.drop 1 ∧
    packageJsonFor a1 = { packageJsonFor a2 with description := a1.description } := by
  constructor
  · simp only [handleCreatePlugin, indexContentFor, viteConfigFor, componentIdent, hn, ho, hw,
      List.drop_succ_cons, List.drop_zero]
  · simp only [packageJsonFor, hn, hw]
    cases hb : web3Includes a2.web3Features "wallet-connect" <;> simp [hb]

/-- C10 witness: concrete requests differing only in description. -/
theorem createPlugin_description_frame_witness :
    ((CreatePluginArgs.mk "n" "d1" "o" none).name = (CreatePluginArgs.mk "n" "d2" "o" none).name ∧
     (CreatePluginArgs.mk "n" "d1" "o" none).outputPath =
        (CreatePluginArgs.mk "n" "d2" "o" none).outputPath ∧
     (CreatePluginArgs.mk "n" "d1" "o" none).web3Features =
        (CreatePluginArgs.mk "n" "d2" "o" none).web3Features) ∧
    ((handleCreatePlugin "/cwd" (CreatePluginArgs.mk "n" "d1" "o" none)).effects.filesWritten.drop 1 =
       (handleCreatePlugin "/cwd" (CreatePluginArgs.mk "n" "d2" "o" none)).effects.filesWritten.drop 1 ∧
     packageJsonFor (CreatePluginArgs.mk "n" "d1" "o" none) =
       { packageJsonFor (CreatePluginArgs.mk "n" "d2" "o" none) with
           description := (CreatePluginArgs.mk "n" "d1" "o" none).description }) :=
  ⟨⟨rfl, rfl, rfl⟩,
   createPlugin_description_frame "/cwd" (CreatePluginArgs.mk "n" "d1" "o" none)
     (CreatePluginArgs.mk "n" "d2" "o" none) rfl rfl rfl⟩

/-- C4: a tool-call request whose name is neither create_plugin nor
build_plugin yields the method-not-found error carrying that exact name, and
performs no effect: no handler runs, no directory is ensured, no file is
written, no process is invoked. -/
theorem callTool_unknown_tool (cwd : String) (pathKind : String → Option PathKind)
    (exec : String → String → Except String Unit) (name : String) (args : ToolArgs)
    (h1 : name ≠ "create_plugin") (h2 : name ≠ "build_plugin") :
    callTool cwd pathKind exec name args =
      { effects := { dirsEnsured := [], filesWritten := [], spawned := [] }
        result := Except.error ⟨ErrorCode.methodNotFound, "Unknown tool: " ++ name⟩ } ∧
    strContains ("Unknown tool: " ++ name) name := by
  refine ⟨by simp [callTool, h1, h2], "Unknown tool: ", "", ?_⟩
  rw [String.append_empty]

/-- C4 witness: a concrete unrecognized tool name. -/
theorem callTool_unknown_tool_witness :
    (("delete_plugin" : String) ≠ "create_plugin" ∧
     ("delete_plugin" : String) ≠ "build_plugin") ∧
    (callTool "/cwd" (fun _ => none) (fun _ _ => Except.ok ()) "delete_plugin"
        (ToolArgs.build (BuildPluginArgs.mk "p")) =
      { effects := { dirsEnsured := [], filesWritten := [], spawned := [] }
        result := Except.error ⟨ErrorCode.methodNotFound, "Unknown tool: " ++ "delete_plugin"⟩ } ∧
     strContains ("Unknown tool: " ++ "delete_plugin") "delete_plugin") :=
  ⟨⟨by decide, by decide⟩,
   callTool_unknown_tool "/cwd" (fun _ => none) (fun _ _ => Except.ok ()) "delete_plugin"
     (ToolArgs.build (BuildPluginArgs.mk "p")) (by decide) (by decide)⟩

/-- C8: the tool catalog is the fixed two-element sequence create_plugin then
build_plugin, each carrying its name, description and parameter schema with
the declared required fields; as a constant of the model it is side-effect
free, and any two invocations return this same content. -/
theorem listTools_static :
    listTools.length = 2 ∧
    listTools.map ToolDescriptor.name = ["create_plugin", "build_plugin"] ∧
    listTools.map ToolDescriptor.description =
      ["Create a new Framer plugin project with web3 capabilities",
       "Build a Framer plugin project"] ∧
    listTools.map ToolDescriptor.inputSchema = [createPluginSchema, buildPluginSchema] ∧
    jsonField createPluginSchema "required" =
      some (Json.arr [Json.str "name", Json.str "description", Json.str "outputPath"]) ∧
    jsonField buildPluginSchema "required" = some (Json.arr [Json.str "pluginPath"]) :=
  ⟨rfl, rfl, rfl, rfl, rfl, rfl⟩

/-- C9: a successful invocation of either handler returns exactly one text
block, and that text contains the resolved absolute path - the resolved
outputPath for create_plugin, the resolved pluginPath for build_plugin. -/
theorem handlers_success_message (cwd : String) (pathKind : String → Option PathKind)
    (exec : String → String → Except String Unit)
    (cargs : CreatePluginArgs) (bargs : BuildPluginArgs)
    (hex : (pathKind (resolvePath cwd bargs.pluginPath)).isSome = true)
    (hok : exec "npm run build" (resolvePath cwd bargs.pluginPath) = Except.ok ()) :
    ((handleCreatePlugin cwd cargs).result =
       Except.ok [ContentBlock.text
         ("Successfully created Framer plugin project at " ++ resolvePath cwd cargs.outputPath)] ∧
     strContains
       ("Successfully created Framer plugin project at " ++ resolvePath cwd cargs.outputPath)
       (resolvePath cwd cargs.outputPath)) ∧
    ((handleBuildPlugin cwd pathKind exec bargs).result =
       Except.ok [ContentBlock.text
         ("Successfully built plugin at " ++ resolvePath cwd bargs.pluginPath)] ∧
     strContains ("Successfully built plugin at " ++ resolvePath cwd bargs.pluginPath)
       (resolvePath cwd bargs.pluginPath)) := by
  refine ⟨⟨rfl, "Successfully created Framer plugin project at ", "", ?_⟩,
          ⟨?_, "Successfully built plugin at ", "", ?_⟩⟩
  · rw [String.append_empty]
  · simp only [handleBuildPlugin, hex, hok, if_true, eq_self_iff_true]
  · rw [String.append_empty]

/-- C9 witness: concrete successful create and build invocations. -/
theorem handlers_success_message_witness :
    (((fun _ => some PathKind.dir) (resolvePath "/cwd"
        (BuildPluginArgs.mk "/plug").pluginPath)).isSome = true ∧
     (fun _ _ => (Except.ok () : Except String Unit)) "npm run build"
        (resolvePath "/cwd" (BuildPluginArgs.mk "/plug").pluginPath) = Except.ok ()) ∧
    (((handleCreatePlugin "/cwd" (CreatePluginArgs.mk "n" "d" "o" none)).result =
        Except.ok [ContentBlock.text
          ("Successfully created Framer plugin project at " ++
            resolvePath "/cwd" (CreatePluginArgs.mk "n" "d" "o" none).outputPath)] ∧
      strContains
        ("Successfully created Framer plugin project at " ++
          resolvePath "/cwd" (CreatePluginArgs.mk "n" "d" "o" none).outputPath)
        (resolvePath "/cwd" (CreatePluginArgs.mk "n" "d" "o" none).outputPath)) ∧
     ((handleBuildPlugin "/cwd" (fun _ => some PathKind.dir)
         (fun _ _ => (Except.ok () : Except String Unit)) (BuildPluginArgs.mk "/plug")).result =
        Except.ok [ContentBlock.text
          ("Successfully built plugin at " ++
            resolvePath "/cwd" (BuildPluginArgs.mk "/plug").pluginPath)] ∧
      strContains
        ("Successfully built plugin at " ++
          resolvePath "/cwd" (BuildPluginArgs.mk "/plug").pluginPath)
        (resolvePath "/cwd" (BuildPluginArgs.mk "/plug").pluginPath))) :=
  ⟨⟨rfl, rfl⟩,
   handlers_success_message "/cwd" (fun _ => some PathKind.dir)
     (fun _ _ => (Except.ok () : Except String Unit))
     (CreatePluginArgs.mk "n" "d" "o" none) (BuildPluginArgs.mk "/plug") rfl rfl⟩

/-- C3 counterexample: build_plugin does not verify that the resolved path is
a directory - it only checks existence (fs.pathExists).  At a resolved path
that exists as a plain file (hence does not exist as a directory), the
build command is nevertheless invoked and the call can even succeed, instead
of failing with the not-found error without spawning a process. -/
theorem buildPlugin_dir_check_counterexample :
    (fun _ => some PathKind.file) (resolvePath "/cwd" "/plug") ≠ some PathKind.dir ∧
    (handleBuildPlugin "/cwd" (fun _ => some PathKind.file) (fun _ _ => Except.ok ())
        (BuildPluginArgs.mk "/plug")).effects.spawned =
      [("npm run build", resolvePath "/cwd" "/plug")] ∧
    (handleBuildPlugin "/cwd" (fun _ => some PathKind.file) (fun _ _ => Except.ok ())
        (BuildPluginArgs.mk "/plug")).effects.spawned ≠ [] ∧
    (handleBuildPlugin "/cwd" (fun _ => some PathKind.file) (fun _ _ => Except.ok ())
        (BuildPluginArgs.mk "/plug")).result =
      Except.ok [ContentBlock.text
        ("Successfully built plugin at " ++ resolvePath "/cwd" "/plug")] := by
  refine ⟨by decide, rfl, by simp [handleBuildPlugin], rfl⟩

/-- C3 (amended): build_plugin checks that the resolved pluginPath exists at
all (fs.pathExists); when it does not exist, the call fails with an internal
error whose message contains the literal resolved absolute path and the
phrase "not found" (stating "Plugin directory not found: <path>"), and no
external process is spawned. -/
theorem buildPlugin_missing_dir (cwd : String) (pathKind : String → Option PathKind)
    (exec : String → String → Except String Unit) (args : BuildPluginArgs)
    (h : pathKind (resolvePath cwd args.pluginPath) = none) :
    (handleBuildPlugin cwd pathKind exec args).result =
      Except.error ⟨ErrorCode.internalError,
        "Failed to build plugin: " ++
          ("Plugin directory not found: " ++ resolvePath cwd args.pluginPath)⟩ ∧
    strContains
      ("Failed to build plugin: " ++
        ("Plugin directory not found: " ++ resolvePath cwd args.pluginPath))
      (resolvePath cwd args.pluginPath) ∧
    strContains
      ("Failed to build plugin: " ++
        ("Plugin directory not found: " ++ resolvePath cwd args.pluginPath))
      "not found" ∧
    (handleBuildPlugin cwd pathKind exec args).effects.spawned = [] := by
  have hois : (pathKind (resolvePath cwd args.pluginPath)).isSome = false := by
    rw [h]; rfl
  refine ⟨by simp [handleBuildPlugin, hois], ?_, ?_, by simp [handleBuildPlugin, hois]⟩
  · refine ⟨"Failed to build plugin: " ++ "Plugin directory not found: ", "", ?_⟩
    rw [String.append_empty, String.append_assoc]
  · refine ⟨"Failed to build plugin: " ++ "Plugin directory ",
      ": " ++ resolvePath cwd args.pluginPath, ?_⟩
    have hsplit : ("Plugin directory not found: " : String) =
        "Plugin directory " ++ "not found" ++ ": " := by decide
    rw [hsplit]
    simp only [String.append_assoc]

/-- Witness for the amended C3 at a concrete nonexistent path. -/
theorem buildPlugin_missing_dir_witness :
    ((fun _ => (none : Option PathKind)) (resolvePath "/cwd" "/missing") = none) ∧
    ((handleBuildPlugin "/cwd" (fun _ => (none : Option PathKind))
        (fun _ _ => (Except.ok () : Except String Unit)) (BuildPluginArgs.mk "/missing")).result =
       Except.error ⟨ErrorCode.internalError,
         "Failed to build plugin: " ++
           ("Plugin directory not found: " ++
             resolvePath "/cwd" (BuildPluginArgs.mk "/missing").pluginPath)⟩ ∧
     strContains
       ("Failed to build plugin: " ++
         ("Plugin directory not found: " ++
           resolvePath "/cwd" (BuildPluginArgs.mk "/missing").pluginPath))
       (resolvePath "/cwd" (BuildPluginArgs.mk "/missing").pluginPath) ∧
     strContains
       ("Failed to build plugin: " ++
         ("Plugin directory not found: " ++
           resolvePath "/cwd" (BuildPluginArgs.mk "/missing").pluginPath))
       "not found" ∧
     (handleBuildPlugin "/cwd" (fun _ => (none : Option PathKind))
        (fun _ _ => (Except.ok () : Except String Unit))
        (BuildPluginArgs.mk "/missing")).effects.spawned = []) :=
  ⟨rfl,
   buildPlugin_missing_dir "/cwd" (fun _ => (none : Option PathKind))
     (fun _ _ => (Except.ok () : Except String Unit)) (BuildPluginArgs.mk "/missing") rfl⟩
